import Mathlib

/-!
Verification of the storage-layout check action (`src/index.ts`) against its
natural-language specification.

The orchestration file `src/index.ts` is the only source file present; the
modules it imports (`./check`, `./format`, `./input`, `./types`) are not in
the repository snapshot, so their definitions below are modelled from the
specification (each such definition's doc comment starts with
`Modelled from the spec:`).  Everything that embeds `src/index.ts` itself is
translated directly from that file.
-/

set_option autoImplicit false

namespace FoundryStorageCheck

/-- Modelled from the spec (section 3, `StorageVariable`): one declared
persistent variable as seen by the layout snapshot. -/
structure StorageVariable where
  name : String
  typeSignature : String
  byteSize : Nat
  slot : Nat
  offset : Nat
deriving DecidableEq, Repr

/-- Modelled from the spec (section 3, `StorageLayout`): an ordered sequence
of `StorageVariable` in declaration order. -/
abbrev StorageLayout := List StorageVariable

/-- Diff kind taxonomy, from `src/types.ts` (`StorageLayoutDiffType`, imported
at `src/index.ts` line 23) as enumerated in the spec, section 4.3. -/
inductive StorageLayoutDiffType where
  | VARIABLE_ADDED
  | VARIABLE_REMOVED
  | VARIABLE_RENAMED
  | TYPE_CHANGED
  | SLOT_CHANGED
deriving DecidableEq, Repr

/-- Annotatable severity level, from the spec, section 4.3 (error/warning). -/
inductive Severity where
  | error
  | warning
deriving DecidableEq, Repr

/-- Modelled from the spec (section 3, `DiffRecord`): one detected
discrepancy between a base and a head layout. -/
structure DiffRecord where
  kind : StorageLayoutDiffType
  variableName : String
  baseVariable : Option StorageVariable := none
  headVariable : Option StorageVariable := none
  onChainEvidence : Option String := none
deriving DecidableEq, Repr

/-- Modelled from the spec (section 4.2, step 2): a base variable is a rename
candidate for a head variable when it occupies the same `(slot, offset)` with
the same `typeSignature`. -/
def samePosition (b h : StorageVariable) : Bool :=
  b.slot == h.slot && b.offset == h.offset && b.typeSignature == h.typeSignature

/-- Modelled from the spec (section 4.2): the head-side pass of the alignment
algorithm.  For each head variable, primary match by name (emitting
`TYPE_CHANGED` / `SLOT_CHANGED` when the matched variable differs), then
secondary match by position+type against the still-unmatched base variables
(emitting `VARIABLE_RENAMED` and consuming the base side, lowest original
index first), else `VARIABLE_ADDED`.  Returns the head-order diff list and
the base variables that remain unmatched. -/
def diffHeadVars (base : StorageLayout) :
    List StorageVariable → List StorageVariable →
    List DiffRecord × List StorageVariable
  | [], rem => ([], rem)
  | h :: hs, rem =>
    match base.find? (fun b => b.name == h.name) with
    | some b =>
      let rest := diffHeadVars base hs rem
      if b.typeSignature != h.typeSignature then
        ({ kind := StorageLayoutDiffType.TYPE_CHANGED, variableName := h.name,
           baseVariable := some b, headVariable := some h } :: rest.1, rest.2)
      else if b.slot != h.slot || b.offset != h.offset then
        ({ kind := StorageLayoutDiffType.SLOT_CHANGED, variableName := h.name,
           baseVariable := some b, headVariable := some h } :: rest.1, rest.2)
      else rest
    | none =>
      match rem.find? (fun b => samePosition b h) with
      | some b =>
        let rest := diffHeadVars base hs (rem.eraseP (fun x => samePosition x h))
        ({ kind := StorageLayoutDiffType.VARIABLE_RENAMED, variableName := h.name,
           baseVariable := some b, headVariable := some h } :: rest.1, rest.2)
      | none =>
        let rest := diffHeadVars base hs rem
        ({ kind := StorageLayoutDiffType.VARIABLE_ADDED, variableName := h.name,
           headVariable := some h } :: rest.1, rest.2)

/-- Modelled from the spec (section 4.2): `checkLayouts` from `src/check.ts`
(called at `src/index.ts` line 134).  Aligns the base and head layouts and
returns the diff records in head declaration order, with pure removals
appended in base declaration order; removals are surfaced in the output only
when `checkRemovals` is true. -/
def checkLayouts (base head : StorageLayout) (checkRemovals : Bool) :
    List DiffRecord :=
  let unmatched := base.filter (fun b => !(head.any (fun h => h.name == b.name)))
  let r := diffHeadVars base head unmatched
  r.1 ++
    (if checkRemovals then
      r.2.map (fun b =>
        { kind := StorageLayoutDiffType.VARIABLE_REMOVED, variableName := b.name,
          baseVariable := some b })
    else [])

/-- Modelled from the spec (section 4.3 severity table): `diffLevels` from
`src/format.ts` (used at `src/index.ts` lines 148 and 162).  A static partial
lookup from diff kind to severity; `VARIABLE_REMOVED` has no entry (the table
says it is an error only when `checkRemovals` is set, which `src/index.ts`
lines 163-166 implement with a separate clause, otherwise omitted). -/
def diffLevels : StorageLayoutDiffType → Option Severity
  | StorageLayoutDiffType.VARIABLE_ADDED => some Severity.warning
  | StorageLayoutDiffType.VARIABLE_RENAMED => some Severity.warning
  | StorageLayoutDiffType.TYPE_CHANGED => some Severity.error
  | StorageLayoutDiffType.SLOT_CHANGED => some Severity.error
  | StorageLayoutDiffType.VARIABLE_REMOVED => none

/-- Modelled from the spec (section 4.3): `diffTitles` from `src/format.ts`
(used at `src/index.ts` line 147), display title per diff kind. -/
def diffTitles : StorageLayoutDiffType → String
  | StorageLayoutDiffType.VARIABLE_ADDED => "Storage variable added"
  | StorageLayoutDiffType.VARIABLE_REMOVED => "Storage variable removed"
  | StorageLayoutDiffType.VARIABLE_RENAMED => "Storage variable renamed"
  | StorageLayoutDiffType.TYPE_CHANGED => "Storage variable type changed"
  | StorageLayoutDiffType.SLOT_CHANGED => "Storage slot changed"

/-- The effective level of the user-facing message for a diff:
`diffLevels[formattedDiff.type] || "error"` (`src/index.ts` line 148). -/
def noticeLevel (t : StorageLayoutDiffType) : Severity :=
  (diffLevels t).getD Severity.error

/-- A line/column position inside a source file. -/
structure SourcePos where
  line : Nat
  column : Nat
deriving DecidableEq, Repr

/-- A source span (start and stop positions), the `loc` of a formatted
diff (`src/index.ts` lines 152-155). -/
structure SourceSpan where
  start : SourcePos
  stop : SourcePos
deriving DecidableEq, Repr

/-- Modelled from the spec (section 4.4): the result of `parseSource` from
`src/input.ts` (`src/index.ts` line 142) — the parsed source definition of
the head contract: its file path, its overall declaration span, and the
declaration span of each variable by name. -/
structure SourceDefinition where
  path : String
  contractSpan : SourceSpan
  decls : List (String × SourceSpan)
deriving DecidableEq, Repr

/-- Modelled from the spec (section 4.4, `FormattedDiff`): a diff resolved to
a message and a source span; carries the machine-readable kind. -/
structure FormattedDiff where
  type : StorageLayoutDiffType
  message : String
  loc : SourceSpan
deriving DecidableEq, Repr

/-- Modelled from the spec (section 4.4): `formatDiff` from `src/format.ts`
(`src/index.ts` line 145).  Looks the affected variable up in the head
source by name; a pure removal falls back to the contract's overall span;
`none` models `SourceLocationNotFoundError` (a head-side name with no
declaration in the head source parse). -/
def formatDiff (src : SourceDefinition) (d : DiffRecord) : Option FormattedDiff :=
  if d.kind == StorageLayoutDiffType.VARIABLE_REMOVED then
    some { type := d.kind,
           message := "variable " ++ d.variableName ++ " was removed",
           loc := src.contractSpan }
  else
    match src.decls.find? (fun p => p.1 == d.variableName) with
    | some p =>
      some { type := d.kind, message := "variable " ++ d.variableName, loc := p.2 }
    | none => none

/-- One emitted workflow message: the call to `error`/`warning` with its
properties at `src/index.ts` lines 149-156. -/
structure Notice where
  level : Severity
  title : String
  message : String
  file : String
  startLine : Nat
  endLine : Nat
  startColumn : Nat
  endColumn : Nat
deriving DecidableEq, Repr

/-- The message emitted for one formatted diff (`src/index.ts` lines 147-156):
level `diffLevels[type] || "error"`, title from `diffTitles`, file the parsed
source's path, and the formatted diff's span. -/
def mkNotice (path : String) (f : FormattedDiff) : Notice :=
  { level := noticeLevel f.type, title := diffTitles f.type,
    message := f.message, file := path,
    startLine := f.loc.start.line, endLine := f.loc.stop.line,
    startColumn := f.loc.start.column, endColumn := f.loc.stop.column }

/-- The failure condition of `src/index.ts` lines 161-166:
`formattedDiffs.filter((diff) => diffLevels[diff.type] === "error").length > 0`
or `failOnRemoval` and
`formattedDiffs.filter((diff) => diff.type === VARIABLE_REMOVED).length > 0`. -/
def unsafeLayoutChanges (failOnRemoval : Bool) (fds : List FormattedDiff) : Bool :=
  decide (0 < (fds.filter (fun d => diffLevels d.type == some Severity.error)).length)
  || (failOnRemoval &&
      decide (0 < (fds.filter
        (fun d => d.type == StorageLayoutDiffType.VARIABLE_REMOVED)).length))

/-- The error thrown at `src/index.ts` line 167 when unsafe layout changes
are detected. -/
def unsafeMessage : String :=
  "Unsafe storage layout changes detected. Please see above for details."

/-- The error thrown at `src/index.ts` line 77 when the artifact upload
returns a null id. -/
def uploadFailedMessage : String := "Failed to upload storage layout report."

/-- The error thrown at `src/index.ts` line 127 when no artifact was found. -/
def noWorkflowMessage (baseReport : String) : String :=
  "No workflow run found with an artifact named \"" ++ baseReport ++ "\""

/-- The pass/fail decision of `src/index.ts` lines 161-167 as a value:
`Except.error unsafeMessage` exactly when the unsafe condition holds. -/
def layoutCheckOutcome (failOnRemoval : Bool) (fds : List FormattedDiff) :
    Except String Unit :=
  if unsafeLayoutChanges failOnRemoval fds then Except.error unsafeMessage
  else Except.ok ()

/-- The per-diff loop of `src/index.ts` lines 144-159: each diff is formatted
and its message emitted in order; a diff that fails to resolve aborts with
the messages emitted so far (`SourceLocationNotFoundError`), otherwise the
full formatted list is returned. -/
def formatAndEmit (src : SourceDefinition) :
    List DiffRecord → List Notice × Except String (List FormattedDiff)
  | [] => ([], Except.ok [])
  | d :: ds =>
    match formatDiff src d with
    | none =>
      ([], Except.error ("no declaration found for variable " ++ d.variableName))
    | some f =>
      let rest := formatAndEmit src ds
      (mkNotice src.path f :: rest.1, rest.2.map (fun fs => f :: fs))

/-- One artifact as listed by the repository artifact API
(`src/index.ts` lines 89-105). -/
structure Artifact where
  id : Nat
  name : String
  expired : Bool
  headSha : Option String
deriving DecidableEq, Repr

/-- The per-page lookup of `src/index.ts` line 93:
`res.data.find((artifact) => !artifact.expired && artifact.name === baseReport)`. -/
def findArtifactPage (baseReport : String) (page : List Artifact) :
    Option Artifact :=
  page.find? (fun a => !a.expired && a.name == baseReport)

/-- The search loop of `src/index.ts` lines 89-106: one pass over the pages
of the artifact listing; a page without a match sleeps `retryDelay`
(counted in the second component) and continues to the next page; a match
breaks out immediately. -/
def searchArtifact (baseReport : String) :
    List (List Artifact) → Option Artifact × Nat
  | [] => (none, 0)
  | page :: rest =>
    match findArtifactPage baseReport page with
    | some a => (some a, 0)
    | none =>
      let r := searchArtifact baseReport rest
      (r.1, r.2 + 1)

/-- The zip-entry loop of `src/index.ts` lines 122-125: every entry is read,
`srcContent` is overwritten each time, so only the last entry's text
survives; `none` models an empty archive (where `srcContent` stays
undefined). -/
def zipLastEntryText (entries : List (String × String)) : Option String :=
  (entries.map Prod.snd).getLast?

/-- The provider construction of `src/index.ts` line 53:
`rpcUrl ? getDefaultProvider(rpcUrl) : undefined` (an empty string is falsy);
the provider value is represented by its URL. -/
def mkProvider (rpcUrl : String) : Option String :=
  if rpcUrl.isEmpty then none else some rpcUrl

/-- Modelled from the spec (sections 4.5 and 6): on-chain removal annotation
inside `src/check.ts` is enabled only when an address and a provider are
both configured; either alone disables it. -/
def onChainEnabled (address : String) (provider : Option String) : Bool :=
  !address.isEmpty && provider.isSome

/-- Modelled from the spec (section 4.5, `annotateRemoval`): when enabled,
attaches the word read at the removed variable's slot (passed in as `word`,
the network read being external) as `onChainEvidence`; it never changes the
diff's kind or severity, and when disabled it is the identity. -/
def annotateRemoval (address : String) (provider : Option String)
    (word : String) (d : DiffRecord) : DiffRecord :=
  if onChainEnabled address provider &&
      (d.kind == StorageLayoutDiffType.VARIABLE_REMOVED) then
    { d with onChainEvidence := some word }
  else d

/-- The environment of one run of `_run` (`src/index.ts` lines 58-171): the
results of all external interactions, so that `_run` itself is a pure
function of it.  `parseLayoutFn` stands for `parseLayout` from
`src/input.ts` (applied to both the generated head content and the
downloaded base content); `createLayoutResult` is the outcome of the
`forge` invocation; `pages` are the pages yielded by the artifact listing
iterator; `zipEntries` the entries of the downloaded archive. -/
structure Env where
  eventName : String
  failOnRemoval : Bool
  baseReport : String
  createLayoutResult : Except String String
  parseLayoutFn : String → Except String StorageLayout
  uploadId : Option Nat
  pages : List (List Artifact)
  zipEntries : List (String × String)
  sourceDef : SourceDefinition

/-- Observable effects of a run: the emitted diff messages and the number of
`retryDelay` sleeps performed by the artifact search loop. -/
structure RunEffects where
  notices : List Notice
  sleeps : Nat
deriving DecidableEq, Repr

/-- The body of `_run` (`src/index.ts` lines 58-171), step by step: generate
the head layout, parse it, upload the report (throwing on a null id), return
early unless the event is a pull request, search the artifact pages
(throwing when nothing was found), read the last zip entry, parse the base
layout, diff, and, when diffs exist, format/emit them and apply the unsafe
pass/fail decision. -/
def _run (env : Env) : RunEffects × Except String Unit :=
  match env.createLayoutResult with
  | Except.error e => (⟨[], 0⟩, Except.error e)
  | Except.ok cmpContent =>
    match env.parseLayoutFn cmpContent with
    | Except.error e => (⟨[], 0⟩, Except.error e)
    | Except.ok cmpLayout =>
      match env.uploadId with
      | none => (⟨[], 0⟩, Except.error uploadFailedMessage)
      | some _ =>
        if env.eventName != "pull_request" then (⟨[], 0⟩, Except.ok ())
        else
          let search := searchArtifact env.baseReport env.pages
          match search.1 with
          | none => (⟨[], search.2⟩, Except.error (noWorkflowMessage env.baseReport))
          | some _ =>
            match zipLastEntryText env.zipEntries with
            | none => (⟨[], search.2⟩, Except.error "srcContent is undefined")
            | some srcContent =>
              match env.parseLayoutFn srcContent with
              | Except.error e => (⟨[], search.2⟩, Except.error e)
              | Except.ok srcLayout =>
                let diffs := checkLayouts srcLayout cmpLayout env.failOnRemoval
                if 0 < diffs.length then
                  let fe := formatAndEmit env.sourceDef diffs
                  match fe.2 with
                  | Except.error e => (⟨fe.1, search.2⟩, Except.error e)
                  | Except.ok fds =>
                    (⟨fe.1, search.2⟩, layoutCheckOutcome env.failOnRemoval fds)
                else (⟨[], search.2⟩, Except.ok ())

/-- Outcome of the top-level `run` (`src/index.ts` lines 173-182): success,
or `setFailed` called with the thrown error. -/
inductive RunOutcome where
  | success
  | failed (msg : String)
deriving DecidableEq, Repr

/-- Full observable trace of `run` (`src/index.ts` lines 173-182): the
effects of `_run`, the recorded outcome, and whether `process.exit` ran
(the `finally` block, hence always true). -/
structure RunTrace where
  notices : List Notice
  sleeps : Nat
  outcome : RunOutcome
  exited : Bool
deriving DecidableEq, Repr

/-- `run` (`src/index.ts` lines 173-182): awaits `_run`, records any thrown
error via `setFailed`, and always exits in the `finally` block. -/
def run (env : Env) : RunTrace :=
  let r := _run env
  { notices := r.1.notices, sleeps := r.1.sleeps,
    outcome :=
      match r.2 with
      | Except.ok _ => RunOutcome.success
      | Except.error m => RunOutcome.failed m,
    exited := true }

/-! ## Helper lemmas -/

/-- The unsafe-layout condition holds exactly when some formatted diff's kind
maps to error severity, or removals are gated and some diff is a removal. -/
theorem unsafeLayoutChanges_eq_true_iff (f : Bool) (fds : List FormattedDiff) :
    unsafeLayoutChanges f fds = true ↔
      (∃ d ∈ fds, diffLevels d.type = some Severity.error) ∨
        (f = true ∧ ∃ d ∈ fds, d.type = StorageLayoutDiffType.VARIABLE_REMOVED) := by
  simp [unsafeLayoutChanges, List.length_pos_iff_exists_mem, List.mem_filter]

/-- The pass/fail decision throws the unsafe-layout error exactly when the
unsafe-layout condition holds. -/
theorem layoutCheckOutcome_error_iff (f : Bool) (fds : List FormattedDiff) :
    layoutCheckOutcome f fds = Except.error unsafeMessage ↔
      unsafeLayoutChanges f fds = true := by
  rw [layoutCheckOutcome]
  cases hx : unsafeLayoutChanges f fds <;> simp [hx]

/-! ## Claims -/

/-- Claim C1: the overall check fails (throws the unsafe-layout error) iff,
among the formatted diffs, at least one diff's kind maps to error severity in
`diffLevels`, or `failOnRemoval` is true and at least one diff has kind
`VARIABLE_REMOVED`; with an empty diff list the run passes. -/
theorem unsafe_layout_failure_iff (f : Bool) (fds : List FormattedDiff) :
    (layoutCheckOutcome f fds = Except.error unsafeMessage ↔
      (∃ d ∈ fds, diffLevels d.type = some Severity.error) ∨
        (f = true ∧ ∃ d ∈ fds, d.type = StorageLayoutDiffType.VARIABLE_REMOVED))
    ∧ layoutCheckOutcome f [] = Except.ok () := by
  constructor
  · rw [layoutCheckOutcome_error_iff]
    exact unsafeLayoutChanges_eq_true_iff f fds
  · simp [layoutCheckOutcome, unsafeLayoutChanges]

/-- Claim C5: on-chain removal annotation needs both a non-empty address and
a configured provider; with an empty `rpcUrl` the provider is `undefined`, so
an address alone never enables an on-chain read and the removal-annotation
step is the identity. -/
theorem onchain_requires_address_and_provider :
    (∀ (a : String) (p : Option String),
        onChainEnabled a p = true ↔ a ≠ "" ∧ p ≠ none)
    ∧ mkProvider "" = none
    ∧ (∀ a : String, onChainEnabled a (mkProvider "") = false)
    ∧ (∀ (a w : String) (d : DiffRecord),
        annotateRemoval a (mkProvider "") w d = d) := by
  have hie : ∀ s : String, s.isEmpty = false ↔ s ≠ "" := by
    intro s
    constructor
    · intro h he
      rw [he] at h
      exact absurd h (by decide)
    · intro h
      cases hx : s.isEmpty
      · rfl
      · exact absurd ((String.isEmpty_iff s).mp hx) h
  have hmk : mkProvider "" = none := rfl
  refine ⟨?_, hmk, ?_, ?_⟩
  · intro a p
    rw [onChainEnabled, Bool.and_eq_true, Bool.not_eq_true', hie a,
      Option.isSome_iff_ne_none]
  · intro a
    rw [hmk]
    simp [onChainEnabled]
  · intro a w d
    rw [hmk]
    simp [annotateRemoval, onChainEnabled]

/-- Claim C10: only the text of the last zip entry survives the entry loop;
the contents of all earlier entries are discarded, so the result does not
depend on them. -/
theorem zip_last_entry_wins (entries other : List (String × String))
    (e : String × String) :
    zipLastEntryText (entries ++ [e]) = some e.2
    ∧ zipLastEntryText (entries ++ [e]) = zipLastEntryText (other ++ [e]) := by
  constructor
  · simp [zipLastEntryText]
  · simp [zipLastEntryText]

/-- Claim C6: if the head layout parse throws, the run aborts with no diff
reported (no messages emitted, no sleeps), the thrown error is recorded as
the run's failure, and the process exits. -/
theorem parse_error_aborts_run (env : Env) (c m : String)
    (h1 : env.createLayoutResult = Except.ok c)
    (h2 : env.parseLayoutFn c = Except.error m) :
    run env = { notices := [], sleeps := 0,
                outcome := RunOutcome.failed m, exited := true } := by
  simp [run, _run, h1, h2]

/-- Environment for the claim C6 witness: the generated layout text does not
parse. -/
def env6 : Env :=
  { eventName := "pull_request", failOnRemoval := true, baseReport := "main.C.json",
    createLayoutResult := Except.ok "raw layout",
    parseLayoutFn := fun _ => Except.error "MalformedLayoutError",
    uploadId := some 1,
    pages := [[⟨1, "main.C.json", false, some "abc"⟩]],
    zipEntries := [("main.C.json", "raw layout")],
    sourceDef := ⟨"src/C.sol", ⟨⟨1, 0⟩, ⟨9, 1⟩⟩, []⟩ }

/-- Witness for claim C6 at a concrete environment. -/
theorem parse_error_aborts_run_w :
    run env6 = { notices := [], sleeps := 0,
                 outcome := RunOutcome.failed "MalformedLayoutError",
                 exited := true } :=
  parse_error_aborts_run env6 "raw layout" "MalformedLayoutError" rfl rfl

/-- When every page of the listing lacks a usable artifact, the search loop
visits each page once and stops: no artifact, one sleep per page. -/
theorem searchArtifact_all_none (br : String) (pages : List (List Artifact))
    (h : ∀ page ∈ pages, findArtifactPage br page = none) :
    searchArtifact br pages = (none, pages.length) := by
  induction pages with
  | nil => rfl
  | cons p rest ih =>
    have hp := h p (List.mem_cons_self p rest)
    simp [searchArtifact, hp,
      ih (fun q hq => h q (List.mem_cons_of_mem p hq))]

/-- Concrete pages for claim C7: two pages, neither holding a non-expired
artifact named `base.json`. -/
def pages7 : List (List Artifact) :=
  [[⟨1, "other", false, none⟩], [⟨2, "base.json", true, none⟩]]

/-- Counterexample to claim C7: on a concrete artifact listing in which no
non-expired artifact carries the base report name, the search loop
terminates after exactly one sleep per page (here two) with no artifact,
rather than retrying indefinitely. -/
theorem search_terminates_cex :
    (pages7.all (fun page =>
      page.all (fun a => !(!a.expired && a.name == "base.json")))) = true
    ∧ searchArtifact "base.json" pages7 = (none, 2) := by
  exact ⟨rfl, rfl⟩

/-- Claim C7 (amended): the search makes a single pass over the finite page
list of the artifact listing, sleeping once per page that lacks a
non-expired artifact named `baseReport`; when no page has one it terminates
after exactly `pages.length` sleeps and the run fails with the
no-workflow-run error. -/
theorem search_single_pass_bounded (env : Env) (c : String) (L : StorageLayout)
    (i : Nat)
    (h1 : env.createLayoutResult = Except.ok c)
    (h2 : env.parseLayoutFn c = Except.ok L)
    (h3 : env.uploadId = some i)
    (h4 : env.eventName = "pull_request")
    (h5 : ∀ page ∈ env.pages, findArtifactPage env.baseReport page = none) :
    searchArtifact env.baseReport env.pages = (none, env.pages.length)
    ∧ run env = { notices := [], sleeps := env.pages.length,
                  outcome := RunOutcome.failed (noWorkflowMessage env.baseReport),
                  exited := true } := by
  have hs := searchArtifact_all_none env.baseReport env.pages h5
  refine ⟨hs, ?_⟩
  simp [run, _run, h1, h2, h3, h4, hs]

/-- Environment for the claim C7 witness: a pull-request run whose artifact
listing never yields the base report. -/
def env7 : Env :=
  { eventName := "pull_request", failOnRemoval := false, baseReport := "base.json",
    createLayoutResult := Except.ok "raw layout",
    parseLayoutFn := fun _ => Except.ok [],
    uploadId := some 1, pages := pages7, zipEntries := [],
    sourceDef := ⟨"src/C.sol", ⟨⟨1, 0⟩, ⟨9, 1⟩⟩, []⟩ }

/-- Witness for claim C7 (amended) at a concrete environment. -/
theorem search_single_pass_bounded_w :
    searchArtifact env7.baseReport env7.pages = (none, env7.pages.length)
    ∧ run env7 = { notices := [], sleeps := env7.pages.length,
                   outcome := RunOutcome.failed (noWorkflowMessage env7.baseReport),
                   exited := true } :=
  search_single_pass_bounded env7 "raw layout" [] 1 rfl rfl rfl rfl (by decide)

/-- Claim C9: on a non-pull-request event the run stops right after the
upload: no sleeps (no base artifact search), no emitted diff messages, and
the outcome is success exactly when layout generation, head parsing and the
upload id all succeeded — so the run never fails because of layout
changes. -/
theorem non_pr_uploads_and_returns (env : Env)
    (hev : env.eventName ≠ "pull_request") :
    (run env).notices = [] ∧ (run env).sleeps = 0 ∧
      ((run env).outcome = RunOutcome.success ↔
        ∃ (c : String) (L : StorageLayout) (i : Nat),
          env.createLayoutResult = Except.ok c ∧
          env.parseLayoutFn c = Except.ok L ∧ env.uploadId = some i) := by
  have hbne : (env.eventName != "pull_request") = true := by
    simpa using hev
  rcases hc : env.createLayoutResult with e | c
  · simp [run, _run, hc]
  · rcases hp : env.parseLayoutFn c with e | L
    · simp [run, _run, hc, hp]
    · rcases hu : env.uploadId with _ | i
      · simp [run, _run, hc, hp, hu]
      · simp [run, _run, hc, hp, hu, hbne]

/-- Environment for the claim C9 witness: a push event with a healthy
pipeline and a diff-laden artifact store that is never consulted. -/
def env9 : Env :=
  { eventName := "push", failOnRemoval := true, baseReport := "main.C.json",
    createLayoutResult := Except.ok "raw layout",
    parseLayoutFn := fun _ => Except.ok [⟨"owner", "t_address", 20, 0, 0⟩],
    uploadId := some 7,
    pages := [[⟨1, "main.C.json", false, some "abc"⟩]],
    zipEntries := [("main.C.json", "raw layout")],
    sourceDef := ⟨"src/C.sol", ⟨⟨1, 0⟩, ⟨9, 1⟩⟩, [("owner", ⟨⟨3, 2⟩, ⟨3, 20⟩⟩)]⟩ }

/-- Witness for claim C9 at a concrete environment. -/
theorem non_pr_uploads_and_returns_w :
    (run env9).notices = [] ∧ (run env9).sleeps = 0 ∧
      ((run env9).outcome = RunOutcome.success ↔
        ∃ (c : String) (L : StorageLayout) (i : Nat),
          env9.createLayoutResult = Except.ok c ∧
          env9.parseLayoutFn c = Except.ok L ∧ env9.uploadId = some i) :=
  non_pr_uploads_and_returns env9 (by decide)

/-- A formatted diff keeps the kind of the diff record it resolves. -/
theorem formatDiff_type_eq (src : SourceDefinition) (d : DiffRecord)
    (f : FormattedDiff) (h : formatDiff src d = some f) : f.type = d.kind := by
  simp only [formatDiff] at h
  split at h
  · cases h
    rfl
  · split at h
    · cases h
      rfl
    · cases h

/-- Claim C2: diff findings are data, not exceptions.  When every diff
resolves, the emitted message list covers the full diff list — one message
per diff, kind preserved — independently of the pass/fail decision, and the
decision afterwards either passes or fails with the single descriptive
unsafe-layout message, which is distinct from the internal upload error. -/
theorem diffs_reported_before_decision (src : SourceDefinition) (f : Bool)
    (diffs : List DiffRecord) (fds : List FormattedDiff)
    (h : (formatAndEmit src diffs).2 = Except.ok fds) :
    (formatAndEmit src diffs).1 = fds.map (mkNotice src.path)
    ∧ fds.map FormattedDiff.type = diffs.map DiffRecord.kind
    ∧ (layoutCheckOutcome f fds = Except.ok ()
        ∨ layoutCheckOutcome f fds = Except.error unsafeMessage)
    ∧ unsafeMessage ≠ uploadFailedMessage := by
  have hmain : (formatAndEmit src diffs).1 = fds.map (mkNotice src.path)
      ∧ fds.map FormattedDiff.type = diffs.map DiffRecord.kind := by
    induction diffs generalizing fds with
    | nil =>
      simp only [formatAndEmit] at h
      cases h
      exact ⟨rfl, rfl⟩
    | cons d ds ih =>
      rcases hfd : formatDiff src d with _ | fd
      · simp only [formatAndEmit, hfd] at h
        cases h
      · simp only [formatAndEmit, hfd] at h ⊢
        rcases hr : (formatAndEmit src ds).2 with e | fs
        · rw [hr] at h
          simp [Except.map] at h
        · rw [hr] at h
          simp only [Except.map] at h
          cases h
          obtain ⟨ih1, ih2⟩ := ih fs hr
          constructor
          · simp [ih1]
          · simp [ih2, formatDiff_type_eq src d fd hfd]
  have hdec : layoutCheckOutcome f fds = Except.ok ()
      ∨ layoutCheckOutcome f fds = Except.error unsafeMessage := by
    rw [layoutCheckOutcome]
    split
    · exact Or.inr rfl
    · exact Or.inl rfl
  exact ⟨hmain.1, hmain.2, hdec, by decide⟩

/-- Source definition for the claim C2 witness. -/
def src2 : SourceDefinition :=
  ⟨"src/C.sol", ⟨⟨1, 0⟩, ⟨9, 1⟩⟩, [("admin", ⟨⟨3, 2⟩, ⟨3, 20⟩⟩)]⟩

/-- Diff list for the claim C2 witness. -/
def diffs2 : List DiffRecord :=
  [{ kind := StorageLayoutDiffType.VARIABLE_ADDED, variableName := "admin" }]

/-- Formatted diffs for the claim C2 witness. -/
def fds2 : List FormattedDiff :=
  [⟨StorageLayoutDiffType.VARIABLE_ADDED, "variable admin", ⟨⟨3, 2⟩, ⟨3, 20⟩⟩⟩]

/-- Witness for claim C2 at a concrete source definition and diff list. -/
theorem diffs_reported_before_decision_w :
    (formatAndEmit src2 diffs2).1 = fds2.map (mkNotice src2.path)
    ∧ fds2.map FormattedDiff.type = diffs2.map DiffRecord.kind
    ∧ (layoutCheckOutcome true fds2 = Except.ok ()
        ∨ layoutCheckOutcome true fds2 = Except.error unsafeMessage)
    ∧ unsafeMessage ≠ uploadFailedMessage :=
  diffs_reported_before_decision src2 true diffs2 fds2 rfl

/-- In a layout whose variable names are pairwise distinct, the primary
name lookup of a member variable finds that variable itself. -/
theorem find_name_self (L : List StorageVariable)
    (hnd : (L.map StorageVariable.name).Nodup)
    (h : StorageVariable) (hh : h ∈ L) :
    L.find? (fun b => b.name == h.name) = some h := by
  induction L with
  | nil => cases hh
  | cons a t ih =>
    have hnd' : (∀ x ∈ t, ¬x.name = a.name)
        ∧ (t.map StorageVariable.name).Nodup := by
      simpa using hnd
    rcases List.mem_cons.mp hh with rfl | hm
    · simp [List.find?]
    · have hne : (a.name == h.name) = false := by
        apply beq_eq_false_iff_ne.mpr
        intro he
        exact hnd'.1 h hm he.symm
      rw [List.find?, hne]
      exact ih hnd'.2 hm

/-- When every head variable finds itself in the base by name, the head pass
emits no diff and consumes no unmatched base variable. -/
theorem diffHeadVars_self (base : List StorageVariable)
    (hs : List StorageVariable) (rem : List StorageVariable)
    (h : ∀ x ∈ hs, base.find? (fun b => b.name == x.name) = some x) :
    diffHeadVars base hs rem = ([], rem) := by
  induction hs with
  | nil => rfl
  | cons x t ih =>
    have hx := h x (List.mem_cons_self x t)
    simp only [diffHeadVars, hx]
    simp [bne_self_eq_false,
      ih (fun y hy => h y (List.mem_cons_of_mem x hy))]

/-- Diffing a layout against itself leaves no base variable unmatched by
name. -/
theorem self_unmatched_nil (L : List StorageVariable) :
    L.filter (fun b => !(L.any (fun h => h.name == b.name))) = [] := by
  apply List.filter_eq_nil_iff.mpr
  intro b hb
  simp only [Bool.not_eq_true', Bool.not_eq_false, List.any_eq_true]
  exact ⟨b, hb, by simp⟩

/-- Claim C4: diffing a layout (with the data-model invariant that variable
names are unique within one snapshot) against itself yields no diff for any
value of `checkRemovals`; consequently no message is emitted and the check
passes. -/
theorem identity_diff_empty (L : StorageLayout) (c : Bool)
    (src : SourceDefinition)
    (hnd : (L.map StorageVariable.name).Nodup) :
    checkLayouts L L c = []
    ∧ formatAndEmit src (checkLayouts L L c) = ([], Except.ok [])
    ∧ layoutCheckOutcome c [] = Except.ok () := by
  have h0 : checkLayouts L L c = [] := by
    simp only [checkLayouts, self_unmatched_nil L,
      diffHeadVars_self L L [] (fun x hx => find_name_self L hnd x hx)]
    cases c <;> simp
  refine ⟨h0, ?_, ?_⟩
  · rw [h0]
    rfl
  · simp [layoutCheckOutcome, unsafeLayoutChanges]

/-- Layout for the claim C4 witness: two distinct variables. -/
def layout4 : StorageLayout :=
  [⟨"owner", "t_address", 20, 0, 0⟩, ⟨"balance", "t_uint256", 32, 1, 0⟩]

/-- Source definition for the claim C4 witness. -/
def src4 : SourceDefinition :=
  ⟨"src/C.sol", ⟨⟨1, 0⟩, ⟨9, 1⟩⟩,
    [("owner", ⟨⟨3, 2⟩, ⟨3, 20⟩⟩), ("balance", ⟨⟨4, 2⟩, ⟨4, 22⟩⟩)]⟩

/-- Witness for claim C4 at a concrete layout, with removals gated. -/
theorem identity_diff_empty_w :
    checkLayouts layout4 layout4 true = []
    ∧ formatAndEmit src4 (checkLayouts layout4 layout4 true) = ([], Except.ok [])
    ∧ layoutCheckOutcome true [] = Except.ok () :=
  identity_diff_empty layout4 true src4 (by decide)

/-- An element that does not satisfy the predicate survives `eraseP`. -/
theorem mem_eraseP_of_pred_false {α : Type} (l : List α) (p : α → Bool) (a : α)
    (h : a ∈ l) (hp : p a = false) : a ∈ l.eraseP p := by
  induction l with
  | nil => cases h
  | cons x t ih =>
    rw [List.eraseP_cons]
    rcases List.mem_cons.mp h with rfl | hm
    · rw [hp]
      simp
    · cases hx : p x
      · simp only [cond_false]
        exact List.mem_cons_of_mem x (ih hm)
      · simp only [cond_true]
        exact hm

/-- The head pass never emits a `VARIABLE_REMOVED` record. -/
theorem diffHeadVars_no_removal (base : StorageLayout)
    (hs : List StorageVariable) :
    ∀ (rem : List StorageVariable) (d : DiffRecord),
      d ∈ (diffHeadVars base hs rem).1 →
      d.kind ≠ StorageLayoutDiffType.VARIABLE_REMOVED := by
  induction hs with
  | nil =>
    intro rem d hd
    simp [diffHeadVars] at hd
  | cons x t ih =>
    intro rem d hd
    rcases hfind : base.find? (fun b => b.name == x.name) with _ | b
    · rcases hrem : rem.find? (fun y => samePosition y x) with _ | b2
      · simp only [diffHeadVars, hfind, hrem] at hd
        rcases List.mem_cons.mp hd with rfl | hd'
        · simp
        · exact ih rem d hd'
      · simp only [diffHeadVars, hfind, hrem] at hd
        rcases List.mem_cons.mp hd with rfl | hd'
        · simp
        · exact ih _ d hd'
    · simp only [diffHeadVars, hfind] at hd
      split at hd
      · rcases List.mem_cons.mp hd with rfl | hd'
        · simp
        · exact ih rem d hd'
      · split at hd
        · rcases List.mem_cons.mp hd with rfl | hd'
          · simp
          · exact ih rem d hd'
        · exact ih rem d hd

/-- A base variable that no head variable can claim as a rename (no shared
slot/offset/type) survives the head pass unconsumed. -/
theorem mem_snd_diffHeadVars (base : StorageLayout)
    (hs : List StorageVariable) :
    ∀ (rem : List StorageVariable) (v : StorageVariable), v ∈ rem →
      (∀ h ∈ hs, samePosition v h = false) →
      v ∈ (diffHeadVars base hs rem).2 := by
  induction hs with
  | nil =>
    intro rem v hv _
    exact hv
  | cons x t ih =>
    intro rem v hv hpos
    have hpt : ∀ h ∈ t, samePosition v h = false :=
      fun h hh => hpos h (List.mem_cons_of_mem x hh)
    rcases hfind : base.find? (fun b => b.name == x.name) with _ | b
    · rcases hrem : rem.find? (fun y => samePosition y x) with _ | b2
      · simp only [diffHeadVars, hfind, hrem]
        exact ih rem v hv hpt
      · simp only [diffHeadVars, hfind, hrem]
        exact ih _ v
          (mem_eraseP_of_pred_false rem _ v hv (hpos x (List.mem_cons_self x t)))
          hpt
    · simp only [diffHeadVars, hfind]
      split
      · exact ih rem v hv hpt
      · split
        · exact ih rem v hv hpt
        · exact ih rem v hv hpt

/-- Base layout for the claim C3 counterexample. -/
def base3 : StorageLayout := [⟨"owner", "t_address", 20, 0, 0⟩]

/-- Head layout for the claim C3 counterexample: `owner` renamed `admin`. -/
def head3 : StorageLayout := [⟨"admin", "t_address", 20, 0, 0⟩]

/-- Counterexample to claim C3: `owner` is present in the base and its name
is absent from the head, yet with `checkRemovals = true` no
`VARIABLE_REMOVED` diff appears — the variable is matched as a rename
(single `VARIABLE_RENAMED`, warning severity) and the check passes. -/
theorem removal_gating_cex :
    ((base3.map StorageVariable.name).contains "owner") = true
    ∧ ((head3.map StorageVariable.name).contains "owner") = false
    ∧ ((checkLayouts base3 head3 true).all
        (fun d => d.kind != StorageLayoutDiffType.VARIABLE_REMOVED)) = true
    ∧ ((checkLayouts base3 head3 true).map DiffRecord.kind)
        = [StorageLayoutDiffType.VARIABLE_RENAMED]
    ∧ layoutCheckOutcome true
        [⟨StorageLayoutDiffType.VARIABLE_RENAMED, "variable admin",
          ⟨⟨3, 2⟩, ⟨3, 20⟩⟩⟩] = Except.ok () :=
  ⟨rfl, rfl, rfl, rfl, rfl⟩

/-- Claim C3 (amended): for a variable `v` of the base layout whose name is
absent from the head layout and which no head variable can claim as a rename
(none shares its slot, offset and type signature), diffing with
`checkRemovals = false` yields no `VARIABLE_REMOVED` at all, while with
`checkRemovals = true` a `VARIABLE_REMOVED` diff for `v` appears, is
reported at error level, and makes the run fail. -/
theorem removal_gating_amended (base head : StorageLayout) (v : StorageVariable)
    (fds : List FormattedDiff)
    (hv : v ∈ base)
    (hname : ∀ h ∈ head, (h.name == v.name) = false)
    (hpos : ∀ h ∈ head, samePosition v h = false)
    (hf : fds.map FormattedDiff.type
      = (checkLayouts base head true).map DiffRecord.kind) :
    (∀ d ∈ checkLayouts base head false,
      d.kind ≠ StorageLayoutDiffType.VARIABLE_REMOVED)
    ∧ (∃ d ∈ checkLayouts base head true,
        d.kind = StorageLayoutDiffType.VARIABLE_REMOVED
        ∧ d.variableName = v.name)
    ∧ noticeLevel StorageLayoutDiffType.VARIABLE_REMOVED = Severity.error
    ∧ layoutCheckOutcome true fds = Except.error unsafeMessage := by
  have h1 : ∀ d ∈ checkLayouts base head false,
      d.kind ≠ StorageLayoutDiffType.VARIABLE_REMOVED := by
    intro d hd
    simp only [checkLayouts] at hd
    rw [if_neg Bool.false_ne_true, List.append_nil] at hd
    exact diffHeadVars_no_removal base head _ d hd
  have hvm : v ∈ base.filter
      (fun b => !(head.any (fun h2 => h2.name == b.name))) := by
    apply List.mem_filter.mpr
    refine ⟨hv, ?_⟩
    simp only [Bool.not_eq_true']
    apply List.any_eq_false.mpr
    intro h2 hh2
    simp [hname h2 hh2]
  have h2mem := mem_snd_diffHeadVars base head _ v hvm hpos
  have h2 : ∃ d ∈ checkLayouts base head true,
      d.kind = StorageLayoutDiffType.VARIABLE_REMOVED
      ∧ d.variableName = v.name := by
    refine ⟨{ kind := StorageLayoutDiffType.VARIABLE_REMOVED,
              variableName := v.name, baseVariable := some v }, ?_, rfl, rfl⟩
    simp only [checkLayouts]
    apply List.mem_append.mpr
    right
    rw [if_pos trivial]
    exact List.mem_map.mpr ⟨v, h2mem, rfl⟩
  have hrem_fd : ∃ fd ∈ fds,
      fd.type = StorageLayoutDiffType.VARIABLE_REMOVED := by
    obtain ⟨d, hd, hk, _⟩ := h2
    have hmem : StorageLayoutDiffType.VARIABLE_REMOVED
        ∈ (checkLayouts base head true).map DiffRecord.kind :=
      List.mem_map.mpr ⟨d, hd, hk⟩
    rw [← hf] at hmem
    obtain ⟨fd, hfd, hty⟩ := List.mem_map.mp hmem
    exact ⟨fd, hfd, hty⟩
  have hunsafe : unsafeLayoutChanges true fds = true :=
    (unsafeLayoutChanges_eq_true_iff true fds).mpr (Or.inr ⟨rfl, hrem_fd⟩)
  exact ⟨h1, h2, rfl, (layoutCheckOutcome_error_iff true fds).mpr hunsafe⟩

/-- Base layout for the claim C3 (amended) witness. -/
def base3w : StorageLayout := [⟨"gap", "t_uint256", 32, 5, 0⟩]

/-- Formatted diffs for the claim C3 (amended) witness. -/
def fds3w : List FormattedDiff :=
  [⟨StorageLayoutDiffType.VARIABLE_REMOVED, "variable gap was removed",
    ⟨⟨1, 0⟩, ⟨9, 1⟩⟩⟩]

/-- Witness for claim C3 (amended): `gap` removed against an empty head. -/
theorem removal_gating_amended_w :
    (∀ d ∈ checkLayouts base3w [] false,
      d.kind ≠ StorageLayoutDiffType.VARIABLE_REMOVED)
    ∧ (∃ d ∈ checkLayouts base3w [] true,
        d.kind = StorageLayoutDiffType.VARIABLE_REMOVED
        ∧ d.variableName = (⟨"gap", "t_uint256", 32, 5, 0⟩ : StorageVariable).name)
    ∧ noticeLevel StorageLayoutDiffType.VARIABLE_REMOVED = Severity.error
    ∧ layoutCheckOutcome true fds3w = Except.error unsafeMessage :=
  removal_gating_amended base3w [] ⟨"gap", "t_uint256", 32, 5, 0⟩ fds3w
    (by decide) (by decide) (by decide) (by decide)

/-- Formatted diffs for claim C8: a single removal, whose kind has no
`diffLevels` entry. -/
def fds8 : List FormattedDiff :=
  [⟨StorageLayoutDiffType.VARIABLE_REMOVED, "variable v was removed",
    ⟨⟨1, 0⟩, ⟨2, 0⟩⟩⟩]

/-- Counterexample to claim C8: `VARIABLE_REMOVED` has no `diffLevels` entry
and its message level falls back to error, but such a diff alone does cause
the run to fail when `failOnRemoval` is set — the failure condition's
separate removal clause counts it. -/
theorem fallback_level_cex :
    diffLevels StorageLayoutDiffType.VARIABLE_REMOVED = none
    ∧ noticeLevel StorageLayoutDiffType.VARIABLE_REMOVED = Severity.error
    ∧ layoutCheckOutcome true fds8 = Except.error unsafeMessage :=
  ⟨rfl, rfl, rfl⟩

/-- Claim C8 (amended): a diff kind with no `diffLevels` entry is reported at
error level via the fallback yet is invisible to the error-severity failure
filter; when every diff's kind is unmapped, the run passes with
`failOnRemoval` unset, and with `failOnRemoval` set it fails exactly when
some diff is a `VARIABLE_REMOVED`. -/
theorem fallback_level_amended (t : StorageLayoutDiffType)
    (fds : List FormattedDiff)
    (ht : diffLevels t = none)
    (hall : ∀ d ∈ fds, diffLevels d.type = none) :
    noticeLevel t = Severity.error
    ∧ layoutCheckOutcome false fds = Except.ok ()
    ∧ (layoutCheckOutcome true fds = Except.error unsafeMessage ↔
        ∃ d ∈ fds, d.type = StorageLayoutDiffType.VARIABLE_REMOVED) := by
  have hlvl : noticeLevel t = Severity.error := by
    rw [noticeLevel, ht]
    rfl
  have hnoerr : ¬∃ d ∈ fds, diffLevels d.type = some Severity.error := by
    rintro ⟨d, hd, hl⟩
    rw [hall d hd] at hl
    cases hl
  refine ⟨hlvl, ?_, ?_⟩
  · have hfalse : unsafeLayoutChanges false fds = false := by
      cases hx : unsafeLayoutChanges false fds
      · rfl
      · exfalso
        rcases (unsafeLayoutChanges_eq_true_iff false fds).mp hx with
          he | ⟨hff, _⟩
        · exact hnoerr he
        · cases hff
    simp [layoutCheckOutcome, hfalse]
  · rw [layoutCheckOutcome_error_iff, unsafeLayoutChanges_eq_true_iff]
    constructor
    · rintro (he | ⟨_, hr⟩)
      · exact absurd he hnoerr
      · exact hr
    · intro hr
      exact Or.inr ⟨rfl, hr⟩

/-- Witness for claim C8 (amended) at the concrete removal diff list. -/
theorem fallback_level_amended_w :
    noticeLevel StorageLayoutDiffType.VARIABLE_REMOVED = Severity.error
    ∧ layoutCheckOutcome false fds8 = Except.ok ()
    ∧ (layoutCheckOutcome true fds8 = Except.error unsafeMessage ↔
        ∃ d ∈ fds8, d.type = StorageLayoutDiffType.VARIABLE_REMOVED) :=
  fallback_level_amended StorageLayoutDiffType.VARIABLE_REMOVED fds8 rfl
    (by decide)

end FoundryStorageCheck
